import Mathlib

/-!
Shallow embedding of the retrieval subsystem of the repository.

Sources embedded:
- `src/step-06/utils/retrieval.js`: `cosineSimilarity`, `retrieveTopK`,
  `findSimilarChunks` (a thin alias of `retrieveTopK`).
- `src/unnamed/part_003` (the database layer of another step):
  `calculateCosineSimilarity`, `findSimilarChunks`.

Modelling conventions:
- JavaScript numbers are idealised as exact rationals `ℚ`: no rounding and
  no overflow.  `Math.sqrt` is modelled by `ratSqrt`, which is exact whenever
  the argument is the square of a rational (every concrete corpus used in the
  theorems below keeps all square roots rational); in the generic theorems the
  square root is never evaluated, only carried as a function.
- A JavaScript array cell is a `JSVal`: an actual number, `NaN`, or any
  non-number value.  The 32-bit float patterns with exponent 255 (IEEE NaNs
  and infinities) all decode to `JSVal.nan`; JavaScript distinguishes
  `±Infinity`, but the corpora of this development are scoped to finite
  stored values, which is where every claim lives.
- `JSON.parse` is a JavaScript builtin (an external collaborator); a stored
  textual embedding is represented by the outcome of parsing it: `none` when
  `JSON.parse` throws, `some l` when it yields a value, recorded as the array
  of cells that `cosineSimilarity` would see for it.
- The SQLite database behind `getDatabase()` is an external collaborator; the
  row set returned by the `SELECT` is passed to the model as an explicit list.
- `Array.prototype.sort` with comparator `(a, b) => b.similarity - a.similarity`
  is required by ECMAScript to be stable; it is modelled by the stable
  insertion sort `sortByKeyDesc`, which produces the unique stable descending
  order for this comparator.
-/

namespace Rag

/-- A JavaScript value sitting in an array cell of a vector: an actual
(finite) number, `NaN`, or some non-number value (string, object, ...). -/
inductive JSVal where
  | num (x : ℚ)
  | nan
  | nonNum
deriving DecidableEq

/-- The element test of `cosineSimilarity`, line 36 of
`src/step-06/utils/retrieval.js`: `typeof v !== 'number' || isNaN(v)`. -/
def JSVal.isInvalidNumber : JSVal → Bool
  | .num _ => false
  | .nan => true
  | .nonNum => true

/-- Numeric reading of a cell.  Only applied after the validity check of
`cosineSimilarity` has passed, so the non-`num` branches are unreachable
there. -/
def JSVal.toRat : JSVal → ℚ
  | .num x => x
  | .nan => 0
  | .nonNum => 0

/-- `Math.sqrt`, idealised on `ℚ`: exact whenever the argument is the square
of a rational (numerator and denominator both perfect squares); on other
non-negative inputs it returns the floor-ish approximation
`√num / √den`, which no theorem below ever evaluates.  Negative inputs are
unreachable in this development (the function is only applied to sums of
squares). -/
def ratSqrt (q : ℚ) : ℚ := (Nat.sqrt q.num.natAbs : ℚ) / (Nat.sqrt q.den : ℚ)

/-- Sum of element-wise products, the `dotProduct` accumulator of the loop in
`cosineSimilarity` (lines 46-50). -/
def dotQ (a b : List ℚ) : ℚ := (List.zipWith (· * ·) a b).sum

/-- Sum of squares, the `normA`/`normB` accumulators of the same loop. -/
def sumSq (a : List ℚ) : ℚ := (a.map (fun x => x * x)).sum

/-- `cosineSimilarity(vectorA, vectorB)` from `src/step-06/utils/retrieval.js`
lines 14-57.  `none` models a `null`/`undefined` argument.  The function is
total: every guard logs and returns `0`, and the only arithmetic happens after
all guards have passed. -/
def cosineSimilarity (vectorA vectorB : Option (List JSVal)) : ℚ :=
  match vectorA, vectorB with
  | none, _ => 0
  | some _, none => 0
  | some vecA, some vecB =>
    if vecA.length ≠ vecB.length then 0
    else if vecA.any JSVal.isInvalidNumber || vecB.any JSVal.isInvalidNumber then 0
    else
      let a := vecA.map JSVal.toRat
      let b := vecB.map JSVal.toRat
      let dotProduct := dotQ a b
      let normA := sumSq a
      let normB := sumSq b
      if normA = 0 ∨ normB = 0 then 0
      else dotProduct / (ratSqrt normA * ratSqrt normB)

/-- Decode one little-endian 32-bit word as an IEEE-754 single-precision
value.  Finite patterns decode exactly into `ℚ`; exponent-255 patterns (NaNs
and infinities) decode to the non-finite marker `JSVal.nan` (see the header
comment for the scoping of infinities). -/
def f32OfBits (w : Nat) : JSVal :=
  let sign : ℚ := if w / 2 ^ 31 % 2 = 1 then -1 else 1
  let expo : Nat := w / 2 ^ 23 % 2 ^ 8
  let mant : Nat := w % 2 ^ 23
  if expo = 255 then JSVal.nan
  else if expo = 0 then JSVal.num (sign * ((mant : ℚ) / 2 ^ 149))
  else JSVal.num (sign * (((2 ^ 23 + mant : Nat) : ℚ) * (2 : ℚ) ^ expo / 2 ^ 150))

/-- Group a byte sequence into little-endian 32-bit words.  Fewer than four
trailing bytes are ignored, exactly as
`new Float32Array(buffer, byteOffset, byteLength / 4)` does: the fractional
length is truncated by ToIndex, so the view has `⌊byteLength / 4⌋` elements. -/
def bytesToWords : List Nat → List Nat
  | b0 :: b1 :: b2 :: b3 :: rest =>
    (b0 + 2 ^ 8 * b1 + 2 ^ 16 * b2 + 2 ^ 24 * b3) :: bytesToWords rest
  | _ => []

/-- The binary branch of the codec (lines 103-113 of
`src/step-06/utils/retrieval.js`, lines 251-255 of `src/unnamed/part_003`):
reinterpret the blob as little-endian 32-bit floats. -/
def decodeBlobF32 (bytes : List Nat) : List JSVal :=
  (bytesToWords bytes).map f32OfBits

/-- The persisted form of an embedding as returned by the `chunks.embedding`
column: SQL `NULL`, the empty string (falsy in the `if (chunk.embedding)`
test), a non-empty string carrying its `JSON.parse` outcome, or a BLOB of
bytes. -/
inductive StoredVal where
  | sqlNull
  | emptyText
  | textual (parse : Option (List JSVal))
  | blob (bytes : List Nat)
deriving DecidableEq

/-- The per-chunk decoding of `retrieveTopK` (lines 90-118): falsy values take
the `Embedding is missing` branch, strings are `JSON.parse`d (a throw skips
the chunk), everything else goes through the `Float32Array` reinterpretation,
which cannot throw for byte blobs. -/
def decodeStored : StoredVal → Option (List JSVal)
  | .sqlNull => none
  | .emptyText => none
  | .textual parse => parse
  | .blob bytes => some (decodeBlobF32 bytes)

/-- One row of the `SELECT` in `retrieveTopK` (chunks joined with their
documents). -/
structure ChunkRow where
  id : Nat
  document_id : Nat
  text : String
  embedding : StoredVal
  title : String
  source : String
deriving DecidableEq

/-- The object built for each surviving chunk (lines 123-130). -/
structure ScoredChunk where
  id : Nat
  documentId : Nat
  text : String
  title : String
  source : String
  similarity : ℚ
deriving DecidableEq

/-- The body of the `chunks.map(...)` callback (lines 88-131): decode the
stored embedding (`none` = the chunk is skipped), then score it against the
query with `cosineSimilarity`. -/
def scoreChunk (queryEmbedding : List JSVal) (c : ChunkRow) : Option ScoredChunk :=
  match decodeStored c.embedding with
  | none => none
  | some embedding =>
    some { id := c.id, documentId := c.document_id, text := c.text,
           title := c.title, source := c.source,
           similarity := cosineSimilarity (some queryEmbedding) (some embedding) }

/-- Stable insertion (by a key, descending) into an already-processed list.
`x` is placed before the first element whose key is not strictly greater,
which is exactly where a stable sort with comparator
`(a, b) => key(b) - key(a)` puts an element relative to the elements that
followed it. -/
def insertByKeyDesc {α K : Type} [LinearOrder K] (key : α → K) (x : α) :
    List α → List α
  | [] => [x]
  | y :: ys =>
    if key x < key y then y :: insertByKeyDesc key x ys else x :: y :: ys

/-- Stable descending sort by key: the model of
`.sort((a, b) => b.similarity - a.similarity)` (stable per ECMAScript). -/
def sortByKeyDesc {α K : Type} [LinearOrder K] (key : α → K) : List α → List α
  | [] => []
  | x :: xs => insertByKeyDesc key x (sortByKeyDesc key xs)

/-- The success path of `retrieveTopK` (lines 85-137): score every row, drop
the `null`s, sort by similarity descending, take the first `k`. -/
def retrieveValid (queryEmbedding : List JSVal) (k : Nat)
    (corpus : List ChunkRow) : List ScoredChunk :=
  ((sortByKeyDesc (fun c => c.similarity)
    (corpus.filterMap (scoreChunk queryEmbedding))).take k)

/-- The `queryEmbedding` argument of `retrieveTopK` as a JavaScript value:
`null`/`undefined`, some non-array value, or an actual array. -/
inductive QueryArg where
  | jsNull
  | nonArray
  | arr (v : List JSVal)

/-- `retrieveTopK(queryEmbedding, k)` from `src/step-06/utils/retrieval.js`
lines 65-138.  The guard is `!queryEmbedding || !Array.isArray(queryEmbedding)`:
every array (including `[]`, which is truthy) passes; everything else throws
before the database is touched, which is why the error does not depend on the
corpus. -/
def retrieveTopK (queryEmbedding : QueryArg) (k : Nat)
    (corpus : List ChunkRow) : Except String (List ScoredChunk) :=
  match queryEmbedding with
  | .arr v => .ok (retrieveValid v k corpus)
  | .jsNull => .error "Invalid query embedding"
  | .nonArray => .error "Invalid query embedding"

namespace P3

/-- `new Float32Array(queryEmbedding)` cell conversion: numbers stay numbers
(float rounding idealised away), everything non-numeric becomes `NaN`.
`none` is the `NaN` of this namespace's `Option ℚ` number model. -/
def qnum : JSVal → Option ℚ
  | .num x => some x
  | .nan => none
  | .nonNum => none

/-- JavaScript `+` on possibly-NaN numbers: `NaN` is contagious. -/
def oAdd : Option ℚ → Option ℚ → Option ℚ
  | some a, some b => some (a + b)
  | _, _ => none

/-- JavaScript `*` on possibly-NaN numbers (no infinities in scope). -/
def oMul : Option ℚ → Option ℚ → Option ℚ
  | some a, some b => some (a * b)
  | _, _ => none

/-- `Math.sqrt` on possibly-NaN numbers; a negative argument is unreachable
here (only sums of squares are passed). -/
def oSqrt : Option ℚ → Option ℚ
  | some a => if a < 0 then none else some (ratSqrt a)
  | none => none

/-- JavaScript `/` on possibly-NaN numbers; the zero divisor is unreachable
behind the norm guard of `calculateCosineSimilarity`. -/
def oDiv : Option ℚ → Option ℚ → Option ℚ
  | some a, some b => some (a / b)
  | _, _ => none

/-- `ys[i]` with JavaScript out-of-bounds semantics: reading past the end of
a `Float32Array` yields `undefined`, and `undefined` entering arithmetic
becomes `NaN` (`none`). -/
def undefAt (ys : List (Option ℚ)) (i : Nat) : Option ℚ := (ys[i]?).join

/-- `calculateCosineSimilarity(embedding1, embedding2)` from
`src/unnamed/part_003` lines 200-217.  The loop runs over the indices of
`embedding1` only — there is no length guard: a longer `embedding2` is
silently truncated, a shorter one injects `NaN` into all three accumulators.
The zero test happens after the square roots, on the rooted norms. -/
def calculateCosineSimilarity (embedding1 embedding2 : List (Option ℚ)) :
    Option ℚ :=
  let idx := List.range embedding1.length
  let dotProduct := idx.foldl
    (fun acc i => oAdd acc (oMul (undefAt embedding1 i) (undefAt embedding2 i)))
    (some 0)
  let norm1 := idx.foldl
    (fun acc i => oAdd acc (oMul (undefAt embedding1 i) (undefAt embedding1 i)))
    (some 0)
  let norm2 := idx.foldl
    (fun acc i => oAdd acc (oMul (undefAt embedding2 i) (undefAt embedding2 i)))
    (some 0)
  let norm1r := oSqrt norm1
  let norm2r := oSqrt norm2
  if norm1r = some 0 ∨ norm2r = some 0 then some 0
  else oDiv dotProduct (oMul norm1r norm2r)

/-- One row of the `SELECT` of `findSimilarChunks` in `src/unnamed/part_003`;
its `WHERE c.embedding IS NOT NULL` means every row carries a BLOB. -/
structure P3Row where
  id : Nat
  text : String
  chunk_strategy : String
  embedding : List Nat
  source : String
  title : String
  filetype : String
deriving DecidableEq

/-- The object built per chunk by `findSimilarChunks` (lines 261-269). -/
structure P3Scored where
  id : Nat
  text : String
  source : String
  title : String
  filetype : String
  chunkStrategy : String
  similarity : Option ℚ
deriving DecidableEq

/-- `chunk.similarity >= similarityThreshold` with JavaScript `NaN`
semantics: `NaN >= t` is false. -/
def jsGe (a : Option ℚ) (t : ℚ) : Bool :=
  match a with
  | some q => decide (t ≤ q)
  | none => false

/-- Sort key for the possibly-NaN similarity.  The lists this sort ever sees
are `NaN`-free (the threshold filter runs first and discards every `NaN`), and
on `NaN`-free lists this order coincides with the JavaScript comparator
`(a, b) => b.similarity - a.similarity`. -/
def toWB : Option ℚ → WithBot ℚ
  | none => ⊥
  | some q => (q : WithBot ℚ)

/-- The `chunksWithSimilarity` intermediate of `findSimilarChunks`
(lines 249-269): every row of the candidate set, scored. -/
def scoredList (corpus : List P3Row) (queryEmbedding : List JSVal) :
    List P3Scored :=
  let queryEmbeddingArray := queryEmbedding.map qnum
  corpus.map (fun chunk =>
    ({ id := chunk.id, text := chunk.text, source := chunk.source,
       title := chunk.title, filetype := chunk.filetype,
       chunkStrategy := chunk.chunk_strategy,
       similarity := calculateCosineSimilarity queryEmbeddingArray
         ((decodeBlobF32 chunk.embedding).map qnum) } : P3Scored))

/-- The JavaScript default of the `limit` parameter of `findSimilarChunks`. -/
def defaultLimit : Nat := 5

/-- The JavaScript default of the `similarityThreshold` parameter of
`findSimilarChunks`: a call that supplies no threshold runs with `0.7`. -/
def defaultSimilarityThreshold : ℚ := (7 : ℚ) / 10

/-- `findSimilarChunks(queryEmbedding, limit = 5, similarityThreshold = 0.7)`
from `src/unnamed/part_003` lines 226-275: score all rows, keep those at or
above the threshold, sort descending, take the first `limit`. -/
def findSimilarChunks (corpus : List P3Row) (queryEmbedding : List JSVal)
    (limit : Nat) (similarityThreshold : ℚ) : List P3Scored :=
  (sortByKeyDesc (fun c => toWB c.similarity)
    ((scoredList corpus queryEmbedding).filter
      (fun c => jsGe c.similarity similarityThreshold))).take limit

end P3

/-! Concrete fixtures used by the counterexamples and witnesses below.
Byte blobs spell little-endian IEEE-754 singles: `[0,0,128,63]` is `1.0f`,
`[0,0,0,0]` is `0.0f`. -/

/-- A corpus row whose stored embedding is the single float `1.0`. -/
def cexRow : ChunkRow :=
  { id := 1, document_id := 1, text := "A", embedding := .blob [0, 0, 128, 63],
    title := "T", source := "S" }

/-- A well-formed two-dimensional candidate, stored as a blob for `[1.0, 0.0]`. -/
def c3Good : ChunkRow :=
  { id := 1, document_id := 1, text := "A",
    embedding := .blob [0, 0, 128, 63, 0, 0, 0, 0], title := "TA", source := "SA" }

/-- A corrupted candidate whose stored embedding parses to the
one-dimensional vector `[1]` — the wrong dimensionality for a 2-dimensional
query. -/
def c3Bad : ChunkRow :=
  { id := 2, document_id := 1, text := "B",
    embedding := .textual (some [.num 1]), title := "TB", source := "SB" }

def c3Corpus : List ChunkRow := [c3Good, c3Bad]

def c3Query : List JSVal := [.num 1, .num 0]

/-- The scored form of `c3Good` against `c3Query` (similarity 1). -/
def c3GoodScored : ScoredChunk :=
  { id := 1, documentId := 1, text := "A", title := "TA", source := "SA",
    similarity := 1 }

/-- The scored form of `c3Bad` against `c3Query` (similarity 0, not dropped). -/
def c3BadScored : ScoredChunk :=
  { id := 2, documentId := 1, text := "B", title := "TB", source := "SB",
    similarity := 0 }

/-- A part_003 row whose embedding blob is `[0.0, 1.0]` — orthogonal to the
query `[1, 0]`, hence similarity exactly 0. -/
def c5Row : P3.P3Row :=
  { id := 1, text := "A", chunk_strategy := "fixed",
    embedding := [0, 0, 0, 0, 0, 0, 128, 63], source := "s", title := "t",
    filetype := "md" }

def c5Query : List JSVal := [.num 1, .num 0]

/-- A part_003 row whose embedding blob is `[1.0, 0.0]` — parallel to the
query `[1, 0]`, hence similarity exactly 1. -/
def c5wRow : P3.P3Row :=
  { id := 2, text := "B", chunk_strategy := "fixed",
    embedding := [0, 0, 128, 63, 0, 0, 0, 0], source := "s2", title := "t2",
    filetype := "md" }

/-- The scored form of `c5wRow` against `c5Query`. -/
def c5wScored : P3.P3Scored :=
  { id := 2, text := "B", source := "s2", title := "t2", filetype := "md",
    chunkStrategy := "fixed", similarity := some 1 }

/-! ## Library of lemmas about the embedded definitions -/

theorem length_insertByKeyDesc {α K : Type} [LinearOrder K] (key : α → K)
    (x : α) (l : List α) :
    (insertByKeyDesc key x l).length = l.length + 1 := by
  induction l with
  | nil => rfl
  | cons y ys ih =>
    simp only [insertByKeyDesc]
    split
    all_goals simp [ih]

theorem length_sortByKeyDesc {α K : Type} [LinearOrder K] (key : α → K)
    (l : List α) : (sortByKeyDesc key l).length = l.length := by
  induction l with
  | nil => rfl
  | cons x xs ih => simp [sortByKeyDesc, length_insertByKeyDesc, ih]

theorem mem_insertByKeyDesc {α K : Type} [LinearOrder K] (key : α → K)
    {a x : α} {l : List α} :
    a ∈ insertByKeyDesc key x l ↔ a = x ∨ a ∈ l := by
  induction l with
  | nil => simp [insertByKeyDesc]
  | cons y ys ih =>
    simp only [insertByKeyDesc]
    split
    all_goals simp only [List.mem_cons, ih]
    all_goals tauto

theorem mem_sortByKeyDesc {α K : Type} [LinearOrder K] (key : α → K)
    {a : α} {l : List α} : a ∈ sortByKeyDesc key l ↔ a ∈ l := by
  induction l with
  | nil => simp [sortByKeyDesc]
  | cons x xs ih =>
    simp only [sortByKeyDesc, mem_insertByKeyDesc, List.mem_cons, ih]

theorem pairwise_insertByKeyDesc {α K : Type} [LinearOrder K] (key : α → K)
    {x : α} {l : List α}
    (h : l.Pairwise (fun a b => key b ≤ key a)) :
    (insertByKeyDesc key x l).Pairwise (fun a b => key b ≤ key a) := by
  induction l with
  | nil => simp [insertByKeyDesc]
  | cons y ys ih =>
    cases h with
    | cons hy hys =>
      simp only [insertByKeyDesc]
      split
      case isTrue hlt =>
        refine List.Pairwise.cons ?_ (ih hys)
        intro b hb
        rcases (mem_insertByKeyDesc key).1 hb with rfl | hb
        · exact le_of_lt hlt
        · exact hy b hb
      case isFalse hlt =>
        refine List.Pairwise.cons ?_ (List.Pairwise.cons hy hys)
        intro b hb
        rcases List.mem_cons.1 hb with rfl | hb
        · exact not_lt.1 hlt
        · exact (hy b hb).trans (not_lt.1 hlt)

theorem pairwise_sortByKeyDesc {α K : Type} [LinearOrder K] (key : α → K)
    (l : List α) :
    (sortByKeyDesc key l).Pairwise (fun a b => key b ≤ key a) := by
  induction l with
  | nil => simp [sortByKeyDesc]
  | cons x xs ih => exact pairwise_insertByKeyDesc key ih

theorem filter_insertByKeyDesc {α K : Type} [LinearOrder K] (key : α → K)
    (p : α → Bool)
    (hp : ∀ a b, p a = true → p b = true → key a = key b)
    (x : α) (l : List α) :
    (insertByKeyDesc key x l).filter p =
      if p x then x :: l.filter p else l.filter p := by
  induction l with
  | nil => cases hx : p x <;> simp [insertByKeyDesc, List.filter, hx]
  | cons y ys ih =>
    simp only [insertByKeyDesc]
    split
    case isTrue hlt =>
      by_cases hy : p y = true
      · by_cases hx : p x = true
        · exact absurd (hp x y hx hy) (ne_of_lt hlt)
        · rw [Bool.not_eq_true] at hx
          simp [List.filter_cons, hy, hx, ih]
      · rw [Bool.not_eq_true] at hy
        simp [List.filter_cons, hy, ih]
    case isFalse hlt =>
      simp [List.filter_cons]

theorem filter_sortByKeyDesc {α K : Type} [LinearOrder K] (key : α → K)
    (p : α → Bool)
    (hp : ∀ a b, p a = true → p b = true → key a = key b)
    (l : List α) :
    (sortByKeyDesc key l).filter p = l.filter p := by
  induction l with
  | nil => rfl
  | cons x xs ih =>
    simp only [sortByKeyDesc]
    rw [filter_insertByKeyDesc key p hp, ih, List.filter_cons]

theorem length_bytesToWords :
    ∀ bytes : List Nat, (bytesToWords bytes).length = bytes.length / 4
  | [] => by simp [bytesToWords]
  | [_] => by simp [bytesToWords]
  | [_, _] => by simp [bytesToWords]
  | [_, _, _] => by simp [bytesToWords]
  | _ :: _ :: _ :: _ :: rest => by
    simp only [bytesToWords, List.length_cons, length_bytesToWords rest]
    omega

theorem retrieveValid_length (v : List JSVal) (k : Nat)
    (corpus : List ChunkRow) :
    (retrieveValid v k corpus).length =
      min k (corpus.filterMap (scoreChunk v)).length := by
  simp [retrieveValid, length_sortByKeyDesc]

theorem cos_none_left (b : Option (List JSVal)) :
    cosineSimilarity none b = 0 := rfl

theorem cos_none_right (a : Option (List JSVal)) :
    cosineSimilarity a none = 0 := by
  cases a <;> rfl

theorem cos_mismatch (A B : List JSVal) (h : A.length ≠ B.length) :
    cosineSimilarity (some A) (some B) = 0 := by
  simp [cosineSimilarity, h]

theorem cos_invalid (A B : List JSVal)
    (h : (A.any JSVal.isInvalidNumber || B.any JSVal.isInvalidNumber) = true) :
    cosineSimilarity (some A) (some B) = 0 := by
  by_cases hl : A.length = B.length
  · simp [cosineSimilarity, hl, h]
  · exact cos_mismatch A B hl

theorem dotQ_comm (a b : List ℚ) : dotQ a b = dotQ b a := by
  unfold dotQ
  induction a generalizing b with
  | nil => cases b <;> rfl
  | cons x xs ih =>
    cases b with
    | nil => rfl
    | cons y ys => simp [List.zipWith, ih ys, mul_comm]

theorem cos_eval (A B : List JSVal) (hl : A.length = B.length)
    (hv : (A.any JSVal.isInvalidNumber || B.any JSVal.isInvalidNumber) = false) :
    cosineSimilarity (some A) (some B) =
      if sumSq (A.map JSVal.toRat) = 0 ∨ sumSq (B.map JSVal.toRat) = 0 then 0
      else dotQ (A.map JSVal.toRat) (B.map JSVal.toRat) /
        (ratSqrt (sumSq (A.map JSVal.toRat)) *
          ratSqrt (sumSq (B.map JSVal.toRat))) := by
  simp only [cosineSimilarity]
  rw [if_neg (by simp [hl]), if_neg (by simp [hv])]

theorem cos_symm (a b : Option (List JSVal)) :
    cosineSimilarity a b = cosineSimilarity b a := by
  cases a with
  | none => cases b <;> rfl
  | some A =>
    cases b with
    | none => rfl
    | some B =>
      by_cases hl : A.length = B.length
      · rcases Bool.eq_false_or_eq_true
          (A.any JSVal.isInvalidNumber || B.any JSVal.isInvalidNumber) with hv | hv
        · have hv' :
            (B.any JSVal.isInvalidNumber || A.any JSVal.isInvalidNumber) = true := by
            rw [Bool.or_comm] at hv; exact hv
          rw [cos_invalid A B hv, cos_invalid B A hv']
        · have hv' :
            (B.any JSVal.isInvalidNumber || A.any JSVal.isInvalidNumber) = false := by
            rw [Bool.or_comm] at hv; exact hv
          rw [cos_eval A B hl hv, cos_eval B A hl.symm hv']
          by_cases hz :
            sumSq (A.map JSVal.toRat) = 0 ∨ sumSq (B.map JSVal.toRat) = 0
          · rw [if_pos hz, if_pos (Or.symm hz)]
          · rw [if_neg hz, if_neg (fun h => hz (Or.symm h))]
            rw [dotQ_comm, mul_comm]
      · rw [cos_mismatch A B hl, cos_mismatch B A (fun h => hl h.symm)]

theorem sumSq_replicate_zero (n : Nat) :
    sumSq (List.replicate n (0 : ℚ)) = 0 := by
  simp [sumSq]

theorem cos_zero_norm_right (A B : List JSVal)
    (hB : sumSq (B.map JSVal.toRat) = 0) :
    cosineSimilarity (some A) (some B) = 0 := by
  by_cases hl : A.length = B.length
  · rcases Bool.eq_false_or_eq_true
      (A.any JSVal.isInvalidNumber || B.any JSVal.isInvalidNumber) with hv | hv
    · exact cos_invalid A B hv
    · rw [cos_eval A B hl hv, if_pos (Or.inr hB)]
  · exact cos_mismatch A B hl

theorem zeroVec_map_toRat (n : Nat) :
    (List.replicate n (JSVal.num 0)).map JSVal.toRat =
      List.replicate n (0 : ℚ) := by
  simp [JSVal.toRat]

theorem zeroVec_any_invalid (n : Nat) :
    (List.replicate n (JSVal.num 0)).any JSVal.isInvalidNumber = false := by
  simp [List.any_eq_false, List.mem_replicate, JSVal.isInvalidNumber]

/-! ## Claim theorems -/

/-- C1 (counterexample). The claim says a length mismatch makes the
similarity function fail with a `DimensionMismatchError` and never return a
numeric answer.  The code has no such error: `cosineSimilarity([1,2],[1,2,3])`
logs the two lengths and returns the numeric answer `0`
(`src/step-06/utils/retrieval.js` lines 30-33). -/
theorem c1_counterexample :
    cosineSimilarity (some [JSVal.num 1, JSVal.num 2])
      (some [JSVal.num 1, JSVal.num 2, JSVal.num 3]) = 0 := by
  simp [cosineSimilarity]

/-- C1 (amended). On every pair of vectors of different lengths,
`cosineSimilarity` returns the neutral score `0` (after logging both
lengths): it does not raise, and it neither truncates to the shorter length
nor zero-pads — no dot product is computed at all. -/
theorem c1_mismatch_returns_zero (A B : List JSVal)
    (h : A.length ≠ B.length) :
    cosineSimilarity (some A) (some B) = 0 :=
  cos_mismatch A B h

/-- C1 (witness). The amended theorem at the concrete mismatched pair. -/
theorem c1_witness :
    ([JSVal.num 1, JSVal.num 2] : List JSVal).length ≠
      ([JSVal.num 1, JSVal.num 2, JSVal.num 3] : List JSVal).length ∧
    cosineSimilarity (some [JSVal.num 1, JSVal.num 2])
      (some [JSVal.num 1, JSVal.num 2, JSVal.num 3]) = 0 :=
  ⟨by decide, c1_mismatch_returns_zero _ _ (by decide)⟩

/-- C2 (counterexample). The claim says `retrieve([], k)` raises a
`ValidationError`.  The guard of `retrieveTopK` is
`!queryEmbedding || !Array.isArray(queryEmbedding)`, and `[]` is a truthy
array: the call proceeds, scores every candidate `0` (length mismatch inside
`cosineSimilarity`) and returns results. -/
theorem c2_counterexample :
    retrieveTopK (QueryArg.arr []) 3 [cexRow] =
      Except.ok [{ id := 1, documentId := 1, text := "A", title := "T",
                   source := "S", similarity := 0 }] := by
  norm_num [retrieveTopK, retrieveValid, cexRow, scoreChunk,
    decodeStored, decodeBlobF32, bytesToWords, f32OfBits, cosineSimilarity,
    List.filterMap, sortByKeyDesc, insertByKeyDesc]

/-- C2 (amended). Only `null`/`undefined` and non-array query values are
rejected — with an error that never depends on the corpus, i.e. before the
candidate set is touched.  Every array, including the empty array `[]` and
arrays with non-numeric elements, passes validation and the call returns
`ok` results. -/
theorem c2_validation_accepts_arrays :
    (∀ (k : Nat) (corpus : List ChunkRow),
      retrieveTopK QueryArg.jsNull k corpus =
        Except.error "Invalid query embedding") ∧
    (∀ (k : Nat) (corpus : List ChunkRow),
      retrieveTopK QueryArg.nonArray k corpus =
        Except.error "Invalid query embedding") ∧
    (∀ (v : List JSVal) (k : Nat) (corpus : List ChunkRow),
      retrieveTopK (QueryArg.arr v) k corpus =
        Except.ok (retrieveValid v k corpus)) :=
  ⟨fun _ _ => rfl, fun _ _ => rfl, fun _ _ _ => rfl⟩

/-- C3 (counterexample). The claim says a wrong-dimensionality candidate is
excluded from the result.  In the code such a candidate is scored `0` by
`cosineSimilarity` (which returns `0` on mismatch instead of raising) and is
kept: with the 2-dimensional query `[1,0]`, the 1-dimensional candidate
`c3Bad` appears in the result with similarity `0`. -/
theorem c3_counterexample :
    retrieveTopK (QueryArg.arr c3Query) 2 c3Corpus =
      Except.ok [c3GoodScored, c3BadScored] ∧
    decodeStored c3Bad.embedding = some [JSVal.num 1] ∧
    c3Query.length = 2 := by
  refine ⟨?_, rfl, rfl⟩
  norm_num [retrieveTopK, retrieveValid, c3Corpus, c3Query, c3Good, c3Bad,
    scoreChunk, decodeStored, decodeBlobF32, bytesToWords, f32OfBits,
    cosineSimilarity, dotQ, sumSq, JSVal.toRat, JSVal.isInvalidNumber,
    ratSqrt, List.zipWith, List.filterMap, sortByKeyDesc, insertByKeyDesc,
    c3GoodScored, c3BadScored]

/-- C3 (amended). For every corpus and every array query, the retrieve call
never raises (`ok` for every array query), and every element of the result
comes from a candidate whose stored embedding decoded successfully —
candidates with an unparseable or missing embedding are excluded.
Wrong-dimensionality candidates, however, are retained with similarity `0`
rather than excluded. -/
theorem c3_decode_failures_isolated (v : List JSVal) (k : Nat)
    (corpus : List ChunkRow) :
    retrieveTopK (QueryArg.arr v) k corpus =
      Except.ok (retrieveValid v k corpus) ∧
    (∀ s ∈ retrieveValid v k corpus,
      ∃ c ∈ corpus, scoreChunk v c = some s) := by
  refine ⟨rfl, ?_⟩
  intro s hs
  have h1 : s ∈ sortByKeyDesc (fun c : ScoredChunk => c.similarity)
      (corpus.filterMap (scoreChunk v)) :=
    List.take_subset _ _ hs
  have h2 : s ∈ corpus.filterMap (scoreChunk v) :=
    (mem_sortByKeyDesc _).1 h1
  exact List.mem_filterMap.1 h2

/-- C3 (witness). The amended theorem applied at `c3Corpus`: the top result
is traced back to the candidate `c3Good` it was scored from. -/
theorem c3_witness :
    ∃ c ∈ c3Corpus, scoreChunk c3Query c = some c3GoodScored :=
  (c3_decode_failures_isolated c3Query 2 c3Corpus).2 c3GoodScored (by
    norm_num [retrieveValid, c3Corpus, c3Query, c3Good, c3Bad,
      scoreChunk, decodeStored, decodeBlobF32, bytesToWords, f32OfBits,
      cosineSimilarity, dotQ, sumSq, JSVal.toRat, JSVal.isInvalidNumber,
      ratSqrt, List.zipWith, List.filterMap, sortByKeyDesc, insertByKeyDesc,
      c3GoodScored])

/-- C4 (counterexample). The claim says a buffer whose byte length is not a
multiple of 4 makes the codec signal `DecodeError` so the candidate is
dropped.  The code's `new Float32Array(buffer, byteOffset, byteLength / 4)`
instead truncates the fractional length (ToIndex): the 5-byte blob
`[0,0,128,63,9]` decodes, without any error, to the one-element vector
`[1.0]` — the trailing byte is silently ignored and the candidate is kept. -/
theorem c4_counterexample :
    decodeStored (StoredVal.blob [0, 0, 128, 63, 9]) = some [JSVal.num 1] := by
  simp only [decodeStored, decodeBlobF32]
  norm_num [bytesToWords, f32OfBits]

/-- C4 (amended). Binary embeddings are reinterpreted as little-endian 32-bit
IEEE-754 floats, but the decoded length is `⌊byteLength / 4⌋`: a byte length
that is not a multiple of 4 never signals an error, the trailing bytes are
silently dropped and the candidate stays in the candidate set. -/
theorem c4_blob_truncated_decode (bytes : List Nat) :
    decodeStored (StoredVal.blob bytes) = some (decodeBlobF32 bytes) ∧
    (decodeBlobF32 bytes).length = bytes.length / 4 := by
  refine ⟨rfl, ?_⟩
  simp [decodeBlobF32, length_bytesToWords]

/-- C5 (counterexample). The claim says that when the caller supplies no
threshold, no similarity filtering happens.  `findSimilarChunks` in
`src/unnamed/part_003` defaults `similarityThreshold` to `0.7`: a call with
the JavaScript defaults against a corpus holding one decodable candidate
(similarity exactly `0` for this query) returns `[]`, although "no filtering"
would return that candidate (`min 5 1 = 1` result). -/
theorem c5_counterexample :
    P3.findSimilarChunks [c5Row] c5Query P3.defaultLimit
      P3.defaultSimilarityThreshold = [] ∧
    (P3.scoredList [c5Row] c5Query).length = 1 := by
  have hdec : decodeBlobF32 c5Row.embedding = [JSVal.num 0, JSVal.num 1] := by
    norm_num [decodeBlobF32, bytesToWords, f32OfBits, c5Row]
  have hsim : P3.calculateCosineSimilarity [some 1, some 0] [some 0, some 1] =
      some 0 := by
    norm_num [P3.calculateCosineSimilarity, P3.oAdd, P3.oMul, P3.oSqrt,
      P3.oDiv, P3.undefAt, ratSqrt, List.range, List.range.loop]
  have hscored : P3.scoredList [c5Row] c5Query =
      [{ id := 1, text := "A", source := "s", title := "t", filetype := "md",
         chunkStrategy := "fixed", similarity := some 0 }] := by
    simp only [P3.scoredList, List.map_cons, List.map_nil, hdec]
    norm_num [c5Row, c5Query, P3.qnum, hsim]
  refine ⟨?_, by simp [hscored]⟩
  simp only [P3.findSimilarChunks, hscored]
  norm_num [P3.jsGe, P3.defaultSimilarityThreshold, List.filter, sortByKeyDesc]

/-- C5 (amended). The two implementations disagree with the claim's "no
default filtering": `retrieveTopK` (step-06) takes no threshold and never
filters — its result length is `min k (#decodable candidates)` regardless of
scores — while part_003's `findSimilarChunks` runs with the default threshold
`0.7` when the caller supplies none.  For any threshold `t` that is in
effect, exactly the candidates whose similarity is strictly below `t` (or
`NaN`) are dropped: no surviving element scores below `t`, and the number of
results is `min limit (#candidates at or above t)`. -/
theorem c5_threshold_semantics :
    (∀ (v : List JSVal) (k : Nat) (corpus : List ChunkRow),
      (retrieveValid v k corpus).length =
        min k (corpus.filterMap (scoreChunk v)).length) ∧
    (∀ (corpus : List P3.P3Row) (q : List JSVal) (limit : Nat) (t : ℚ),
      ∀ s ∈ P3.findSimilarChunks corpus q limit t,
        P3.jsGe s.similarity t = true) ∧
    (∀ (corpus : List P3.P3Row) (q : List JSVal) (limit : Nat) (t : ℚ),
      (P3.findSimilarChunks corpus q limit t).length =
        min limit ((P3.scoredList corpus q).filter
          (fun c => P3.jsGe c.similarity t)).length) := by
  refine ⟨retrieveValid_length, ?_, ?_⟩
  · intro corpus q limit t s hs
    have h1 : s ∈ sortByKeyDesc (fun c : P3.P3Scored => P3.toWB c.similarity)
        ((P3.scoredList corpus q).filter
          (fun c => P3.jsGe c.similarity t)) :=
      List.take_subset _ _ hs
    have h2 := (mem_sortByKeyDesc _).1 h1
    exact (List.mem_filter.1 h2).2
  · intro corpus q limit t
    simp [P3.findSimilarChunks, length_sortByKeyDesc]

/-- C5 (witness). The threshold part of the amended theorem at a concrete
call: the surviving candidate of `[c5wRow]` under threshold `1/2` indeed
scores at or above `1/2`. -/
theorem c5_witness : P3.jsGe c5wScored.similarity ((1 : ℚ) / 2) = true :=
  c5_threshold_semantics.2.1 [c5wRow] c5Query 5 ((1 : ℚ) / 2) c5wScored (by
    have hdec : decodeBlobF32 c5wRow.embedding = [JSVal.num 1, JSVal.num 0] := by
      norm_num [decodeBlobF32, bytesToWords, f32OfBits, c5wRow]
    have hsim : P3.calculateCosineSimilarity [some 1, some 0] [some 1, some 0] =
        some 1 := by
      norm_num [P3.calculateCosineSimilarity, P3.oAdd, P3.oMul, P3.oSqrt,
        P3.oDiv, P3.undefAt, ratSqrt, List.range, List.range.loop]
    have hscored : P3.scoredList [c5wRow] c5Query = [c5wScored] := by
      simp only [P3.scoredList, List.map_cons, List.map_nil, hdec]
      norm_num [c5wRow, c5Query, P3.qnum, hsim, c5wScored]
    simp only [P3.findSimilarChunks, hscored]
    norm_num [P3.jsGe, List.filter, sortByKeyDesc, insertByKeyDesc, c5wScored])

/-- C6 (confirmed). For every array query `v`, every `k` and every corpus,
`retrieveTopK` succeeds and returns exactly `min k (#valid candidates)`
results, where the valid candidates are the rows whose stored embedding
decodes: at most `k` results, fewer than `k` exactly when fewer than `k`
candidates decode, and the empty list — not an error — when none do. -/
theorem c6_topk_cardinality (v : List JSVal) (k : Nat)
    (corpus : List ChunkRow) :
    retrieveTopK (QueryArg.arr v) k corpus =
      Except.ok (retrieveValid v k corpus) ∧
    (retrieveValid v k corpus).length =
      min k (corpus.filterMap (scoreChunk v)).length :=
  ⟨rfl, retrieveValid_length v k corpus⟩

/-- C7 (confirmed). Every retrieval result is sorted by similarity in
descending order (pairwise, hence in particular adjacent elements satisfy
`result[i].similarity ≥ result[i+1].similarity`), and the sort is stable:
for every score `s`, the subsequence of the result scored `s` is a
subsequence — in the same order — of the scored candidate list in its
original corpus enumeration order. -/
theorem c7_sorted_stable (v : List JSVal) (k : Nat)
    (corpus : List ChunkRow) :
    (retrieveValid v k corpus).Pairwise
      (fun a b => b.similarity ≤ a.similarity) ∧
    (∀ s : ℚ,
      List.Sublist
        ((retrieveValid v k corpus).filter
          (fun c => decide (c.similarity = s)))
        ((corpus.filterMap (scoreChunk v)).filter
          (fun c => decide (c.similarity = s)))) := by
  constructor
  · exact List.Pairwise.sublist (List.take_sublist _ _)
      (pairwise_sortByKeyDesc _ _)
  · intro s
    have hp : ∀ a b : ScoredChunk,
        (decide (a.similarity = s)) = true →
        (decide (b.similarity = s)) = true →
        a.similarity = b.similarity := by
      intro a b ha hb
      rw [decide_eq_true_eq] at ha hb
      rw [ha, hb]
    have h1 := (List.take_sublist k
      (sortByKeyDesc (fun c : ScoredChunk => c.similarity)
        (corpus.filterMap (scoreChunk v)))).filter
      (fun c => decide (c.similarity = s))
    rw [filter_sortByKeyDesc _ _ hp] at h1
    exact h1

/-- C8 (confirmed). Pairing any vector `A` with the equal-length zero vector
yields similarity exactly `0`, on both sides: the norm of the zero vector is
exactly `0`, so the zero-norm guard of `cosineSimilarity` returns `0` before
any division — no division by zero, no `NaN`. -/
theorem c8_zero_vector_neutral (A : List JSVal) :
    cosineSimilarity (some A)
      (some (List.replicate A.length (JSVal.num 0))) = 0 ∧
    cosineSimilarity (some (List.replicate A.length (JSVal.num 0)))
      (some A) = 0 := by
  have h : cosineSimilarity (some A)
      (some (List.replicate A.length (JSVal.num 0))) = 0 := by
    apply cos_zero_norm_right
    rw [zeroVec_map_toRat, sumSq_replicate_zero]
  exact ⟨h, by rw [cos_symm]; exact h⟩

/-- C9 (confirmed). `cosineSimilarity` is symmetric on all inputs (even
invalid ones): the dot product and the product of the two norms are invariant
under swapping the arguments, and every guard (null check, length check,
element validity check, zero-norm check) is symmetric as well. -/
theorem c9_similarity_symmetric (a b : Option (List JSVal)) :
    cosineSimilarity a b = cosineSimilarity b a :=
  cos_symm a b

/-- C10 (confirmed). `cosineSimilarity` is a total function — it never
throws — and on every input where an argument is `null`/`undefined` or a
vector contains a non-numeric or `NaN` element it returns the neutral score
`0`. -/
theorem c10_invalid_input_returns_zero :
    (∀ b, cosineSimilarity none b = 0) ∧
    (∀ a, cosineSimilarity a none = 0) ∧
    (∀ A B : List JSVal,
      (A.any JSVal.isInvalidNumber || B.any JSVal.isInvalidNumber) = true →
      cosineSimilarity (some A) (some B) = 0) :=
  ⟨cos_none_left, cos_none_right, cos_invalid⟩

/-- C10 (witness). The invalid-element part at a concrete input: a vector
containing `NaN` scores `0` against itself. -/
theorem c10_witness :
    (([JSVal.nan] : List JSVal).any JSVal.isInvalidNumber ||
      ([JSVal.nan] : List JSVal).any JSVal.isInvalidNumber) = true ∧
    cosineSimilarity (some [JSVal.nan]) (some [JSVal.nan]) = 0 :=
  ⟨by decide, c10_invalid_input_returns_zero.2.2 _ _ (by decide)⟩

end Rag
